import Mathlib

/-!
Verification development for the waves-ui-piper timeline core: the
time-context / coordinate-transform subsystem, the interaction state
machine (CenteredZoomState) and the Timeline hub (event dispatch, state
switching, track/layer bookkeeping).  Numeric quantities are embedded as
exact rationals; JS objects become Lean structures, JS arrays become
lists, thrown exceptions become explicit error values or action traces.
-/

namespace WavesUI

/-! ## Time context

Modelled from the spec: the TimeContext source is not part of the
source tree (only its consumers are).  The spec gives the affine
mapping: `timeToPixel(t) = (t - offset) * pixelsPerSecond * zoom` and
`pixelToTime(x) = x / (pixelsPerSecond * zoom) + offset`, and equates
`xScale.invert` with `pixelToTime`. -/

structure TimeCtx where
  pixelsPerSecond : ℚ
  stretchRatio : ℚ
  offset : ℚ
deriving DecidableEq, Repr

/-- Modelled from the spec: `pixelToTime(x) = x / (pixelsPerSecond × zoom) + offset`;
this is what `timeContext.xScale.invert` computes on the current parameters. -/
def pixelToTime (c : TimeCtx) (x : ℚ) : ℚ :=
  x / (c.pixelsPerSecond * c.stretchRatio) + c.offset

/-- Modelled from the spec: `timeToPixel(t) = (t − offset) × pixelsPerSecond × zoom`. -/
def timeToPixel (c : TimeCtx) (t : ℚ) : ℚ :=
  (t - c.offset) * (c.pixelsPerSecond * c.stretchRatio)

/-! ## CenteredZoomState (src/unnamed/part_000) -/

/-- A normalized input event as produced by the Surface collaborators:
`type` is the raw event-type string, `x`/`y` the pointer position,
`dx`/`dy` the pixel deltas. -/
structure WEvent where
  type : String
  x : ℚ
  y : ℚ
  dx : ℚ
  dy : ℚ
deriving DecidableEq, Repr

/-- The gesture state of a `CenteredZoomState` together with the time
contexts of the views it mutates (`this.views` in the source). -/
structure CZState where
  mouseDown : Bool
  views : List TimeCtx
deriving DecidableEq, Repr

/-- The body of `CenteredZoomState.onMouseMove` for a single view's time
context: reads `lastCenterTime = xScale.invert(e.x)`, bumps
`stretchRatio` by `e.dy / 100` clamped at `0.01`, reads
`newCenterTime = xScale.invert(e.x)` on the updated parameters, and adds
`(newCenterTime - lastCenterTime) + xScale.invert(e.dx)` to `offset`. -/
def centeredZoomStep (c : TimeCtx) (x dx dy : ℚ) : TimeCtx :=
  let lastCenterTime := pixelToTime c x
  let c1 : TimeCtx := { c with stretchRatio := max (c.stretchRatio + dy / 100) (1 / 100) }
  let newCenterTime := pixelToTime c1 x
  let delta := newCenterTime - lastCenterTime
  { c1 with offset := c1.offset + (delta + pixelToTime c1 dx) }

/-- `CenteredZoomState.onMouseDown`: records that the mouse is down. -/
def onMouseDown (s : CZState) (_e : WEvent) : CZState :=
  { s with mouseDown := true }

/-- `CenteredZoomState.onMouseMove`: returns unchanged unless the mouse
is down, otherwise applies `centeredZoomStep` to every view's context. -/
def onMouseMove (s : CZState) (e : WEvent) : CZState :=
  if !s.mouseDown then s
  else { s with views := s.views.map (fun c => centeredZoomStep c e.x e.dx e.dy) }

/-- `CenteredZoomState.onMouseUp`: clears the mouse-down flag. -/
def onMouseUp (s : CZState) (_e : WEvent) : CZState :=
  { s with mouseDown := false }

/-- `CenteredZoomState.handleEvent`: switch on `e.type`, dispatching to
the three mouse handlers; any other type falls through the switch. -/
def handleEvent (s : CZState) (e : WEvent) : CZState :=
  if e.type = "mousedown" then onMouseDown s e
  else if e.type = "mousemove" then onMouseMove s e
  else if e.type = "mouseup" then onMouseUp s e
  else s

/-! ## Theorems for CenteredZoomState -/

/-- C1: the centered-zoom centering invariant fails on the code.  At the
concrete failing input (context `pixelsPerSecond = 100`,
`stretchRatio = 1`, `offset = 0`; pointer `x = 100`, `dx = 0`,
`dy = 100`, mouse down), the time under the pointer before the
`mousemove` step is `1`, but after `CenteredZoomState.onMouseMove`
processes the step it is `0`: the offset correction adds the zoom-induced
drift instead of cancelling it (the source file itself is marked
`broken`). -/
theorem centeredZoom_centering_fails_at_input :
    pixelToTime (⟨100, 1, 0⟩ : TimeCtx) 100 = 1 ∧
    (onMouseMove ⟨true, [⟨100, 1, 0⟩]⟩ ⟨"mousemove", 100, 0, 0, 100⟩).views =
      [⟨100, 2, -(1 / 2)⟩] ∧
    pixelToTime (⟨100, 2, -(1 / 2)⟩ : TimeCtx) 100 ≠
      pixelToTime (⟨100, 1, 0⟩ : TimeCtx) 100 := by
  refine ⟨by norm_num [pixelToTime], ?_, by norm_num [pixelToTime]⟩
  simp only [onMouseMove, centeredZoomStep, pixelToTime]
  norm_num

/-- C8: zoom floor.  After a `CenteredZoomState` `mousemove` step while
the mouse is down, every view's stored `stretchRatio` is at least
`0.01`, whatever the zoom delta `dy` (the source clamps with
`Math.max(stretchRatio, 0.01)` on every mutation). -/
theorem centeredZoom_stretchRatio_floor (s : CZState) (e : WEvent)
    (hdown : s.mouseDown = true) (htype : e.type = "mousemove") :
    ∀ c ∈ (handleEvent s e).views, 1 / 100 ≤ c.stretchRatio := by
  intro c hc
  rcases e with ⟨t, x, y, dx, dy⟩
  subst htype
  simp only [handleEvent, if_neg (show ¬ ("mousemove" = "mousedown") by decide),
    if_pos (show ("mousemove" = "mousemove") by rfl), if_true,
    Bool.not_true, Bool.false_eq_true, if_false, onMouseMove, hdown,
    eq_self_iff_true, List.mem_map] at hc
  obtain ⟨c0, _, rfl⟩ := hc
  have hstep : (centeredZoomStep c0 x dx dy).stretchRatio =
      max (c0.stretchRatio + dy / 100) (1 / 100) := rfl
  rw [hstep]
  exact le_max_right _ _

/-- Witness for C8 at a concrete input: a view at `stretchRatio = 1`
receiving the large negative zoom delta `dy = -500` comes out of the
step as the context `(100, 1/100, 99/2)`, clamped at the floor. -/
theorem centeredZoom_stretchRatio_floor_witness :
    (1 : ℚ) / 100 ≤ (TimeCtx.mk 100 (1 / 100) (99 / 2)).stretchRatio :=
  centeredZoom_stretchRatio_floor ⟨true, [⟨100, 1, 0⟩]⟩
    ⟨"mousemove", 50, 0, 0, -500⟩ rfl rfl ⟨100, 1 / 100, 99 / 2⟩
    (by norm_num [handleEvent, onMouseMove, centeredZoomStep, pixelToTime,
      if_neg (show ¬ ("mousemove" = "mousedown") by decide)])

/-- C9: unrecognized event types are no-ops.  For any event whose type
is none of `mousedown`, `mousemove`, `mouseup`,
`CenteredZoomState.handleEvent` returns the gesture state and every
view's time context unchanged (the `switch` falls through). -/
theorem handleEvent_unrecognized_noop (s : CZState) (e : WEvent)
    (h1 : e.type ≠ "mousedown") (h2 : e.type ≠ "mousemove")
    (h3 : e.type ≠ "mouseup") :
    handleEvent s e = s := by
  simp [handleEvent, h1, h2, h3]

/-- Witness for C9: a `wheel` event leaves a concrete state untouched. -/
theorem handleEvent_unrecognized_noop_witness :
    handleEvent ⟨true, [⟨100, 1, 0⟩]⟩ ⟨"wheel", 5, 5, 1, 2⟩ =
      ⟨true, [⟨100, 1, 0⟩]⟩ :=
  handleEvent_unrecognized_noop _ _ (by decide) (by decide) (by decide)

/-! ## Timeline event dispatch and state switching (src/es6/core/timeline.js) -/

/-- A layer as seen by `Timeline.getHitLayers`: its `params.hittable`
flag and the bounding client rectangle of its `$el`. -/
structure HLayer where
  id : Nat
  hittable : Bool
  left : ℚ
  right : ℚ
  top : ℚ
  bottom : ℚ
deriving DecidableEq, Repr

/-- A surface/keyboard event as consumed by `Timeline._handleEvent`:
`source` tags its origin, `clientX`/`clientY` come from
`e.originalEvent`. -/
structure SEvent where
  id : Nat
  source : String
  clientX : ℚ
  clientY : ℚ
deriving DecidableEq, Repr

/-- `Timeline.getHitLayers`: iterates the layer list in order, skips any
layer whose `params.hittable` is false, and pushes each remaining layer
whose bounding client rectangle strictly contains the pointer position. -/
def getHitLayers (layers : List HLayer) (e : SEvent) : List HLayer :=
  layers.foldl
    (fun acc layer =>
      if !layer.hittable then acc
      else if e.clientX > layer.left ∧ e.clientX < layer.right ∧
              e.clientY > layer.top ∧ e.clientY < layer.bottom
        then acc ++ [layer]
        else acc)
    []

/-- The hit-layers argument computed at the top of `Timeline._handleEvent`:
`(e.source === 'surface') ? this.getHitLayers(e) : null`. -/
def hitLayersArg (layers : List HLayer) (e : SEvent) : Option (List HLayer) :=
  if e.source = "surface" then some (getHitLayers layers e) else none

/-- An observable call made by the Timeline hub: a state lifecycle call
(`exit`/`enter` on the state object with the given id), the public
re-emission of an event with its hit layers, or the forwarding of an
event to the active state's `handleEvent`. -/
inductive SMCall where
  | exitState (sid : Nat)
  | enterState (sid : Nat)
  | emitEvent (eid : Nat) (hit : Option (List HLayer))
  | stateHandle (sid : Nat) (eid : Nat) (hit : Option (List HLayer))
deriving DecidableEq, Repr

/-- The `Timeline` `state` setter: `if (this._state) { this._state.exit(); }`,
then the assignment, then `if (this._state) { this._state.enter(); }`.
Returns the new `_state` field and the trace of lifecycle calls in
order. -/
def setState (stOld stNew : Option Nat) : Option Nat × List SMCall :=
  (stNew,
    (match stOld with
     | none => []
     | some o => [SMCall.exitState o]) ++
    (match stNew with
     | none => []
     | some n => [SMCall.enterState n]))

/-- `Timeline._handleEvent` as its trace of observable calls: computes
the hit layers (only for surface events), re-emits the event publicly
together with them, then returns early if `_state` is null, else
forwards `(event, hitLayers)` to the active state's `handleEvent`. -/
def handleEventCalls (layers : List HLayer) (st : Option Nat) (e : SEvent) :
    List SMCall :=
  let hitLayers := hitLayersArg layers e
  SMCall.emitEvent e.id hitLayers ::
    (match st with
     | none => []
     | some sid => [SMCall.stateHandle sid e.id hitLayers])

/-- C2: state-switch atomicity.  Assigning the `state` setter leaves the
stored `_state` equal to the new value; when a previous state exists its
`exit` runs exactly once, and when a new state also exists the whole
trace is exactly `[exit old, enter new]` (so `exit` precedes `enter` and
each runs once); an event dispatched after the assignment is routed only
to the new state; assigning null is permitted and makes dispatch skip
state routing entirely. -/
theorem state_switch_atomic (stOld stNew : Option Nat)
    (layers : List HLayer) (e : SEvent) :
    (setState stOld stNew).1 = stNew ∧
    (∀ o, stOld = some o →
      ((setState stOld stNew).2.count (SMCall.exitState o) = 1 ∧
        ∀ n, stNew = some n →
          (setState stOld stNew).2 = [SMCall.exitState o, SMCall.enterState n])) ∧
    (∀ sid eid hl,
      SMCall.stateHandle sid eid hl ∈
          handleEventCalls layers (setState stOld stNew).1 e →
        stNew = some sid) ∧
    (stNew = none →
      handleEventCalls layers (setState stOld stNew).1 e =
        [SMCall.emitEvent e.id (hitLayersArg layers e)]) := by
  refine ⟨rfl, ?_, ?_, ?_⟩
  · rintro o rfl
    cases stNew with
    | none => exact ⟨by simp [setState], by rintro n ⟨⟩⟩
    | some n =>
        refine ⟨by simp [setState, List.count_cons], ?_⟩
        rintro n' hn'
        injection hn' with hn'
        subst hn'
        rfl
  · rintro sid eid hl hmem
    cases stNew with
    | none => simp [handleEventCalls, setState] at hmem
    | some n =>
        simp only [handleEventCalls, setState, List.mem_cons, List.not_mem_nil,
          or_false] at hmem
        rcases hmem with h | h
        · exact absurd h (by simp)
        · injection h with h1 h2 h3
          subst h1
          rfl
  · rintro rfl
    rfl

/-- Witness for C2 at a concrete switch from state `1` to state `2` with
a keyboard event dispatched afterwards. -/
theorem state_switch_atomic_witness :
    (setState (some 1) (some 2)).2.count (SMCall.exitState 1) = 1 ∧
    (setState (some 1) (some 2)).2 =
      [SMCall.exitState 1, SMCall.enterState 2] := by
  have h := state_switch_atomic (some 1) (some 2) [] ⟨0, "keyboard", 0, 0⟩
  exact ⟨(h.2.1 1 rfl).1, (h.2.1 1 rfl).2 2 rfl⟩

/-- C3: input dispatch order.  The first observable call of
`Timeline._handleEvent` is always the public re-emission of the event
with its hit layers (even when no state is active); hit-testing is
performed only for surface events (`null` otherwise); and when a state
is active the full trace is the emission followed by forwarding
`(event, hitLayers)` to that state. -/
theorem dispatch_order (layers : List HLayer) (st : Option Nat) (e : SEvent) :
    (handleEventCalls layers st e).head? =
      some (SMCall.emitEvent e.id (hitLayersArg layers e)) ∧
    (e.source ≠ "surface" → hitLayersArg layers e = none) ∧
    (e.source = "surface" →
      hitLayersArg layers e = some (getHitLayers layers e)) ∧
    (∀ sid, st = some sid →
      handleEventCalls layers st e =
        [SMCall.emitEvent e.id (hitLayersArg layers e),
         SMCall.stateHandle sid e.id (hitLayersArg layers e)]) ∧
    (st = none →
      handleEventCalls layers st e =
        [SMCall.emitEvent e.id (hitLayersArg layers e)]) := by
  refine ⟨rfl, fun h => by simp [hitLayersArg, h], fun h => by simp [hitLayersArg, h],
    ?_, ?_⟩
  · rintro sid rfl
    rfl
  · rintro rfl
    rfl

/-- Witness for C3 at a concrete non-surface event with no active state:
the event is still emitted, with no hit-testing. -/
theorem dispatch_order_witness :
    handleEventCalls [] none ⟨3, "keyboard", 1, 1⟩ =
      [SMCall.emitEvent 3 (hitLayersArg [] ⟨3, "keyboard", 1, 1⟩)] ∧
    hitLayersArg [] ⟨3, "keyboard", 1, 1⟩ = none := by
  have h := dispatch_order [] none ⟨3, "keyboard", 1, 1⟩
  exact ⟨h.2.2.2.2 rfl, h.2.1 (by decide)⟩

/-! ## Hit-testing output (claim C6) -/

/-- The hit set exactly as claim C6 words it: every layer whose bounding
rectangle contains the pointer position, in layer order, with no further
filtering.  Stated from the claim, to be compared with `getHitLayers`. -/
def claimedHitLayers (layers : List HLayer) (e : SEvent) : List HLayer :=
  layers.filter (fun l =>
    decide (e.clientX > l.left) && decide (e.clientX < l.right) &&
      decide (e.clientY > l.top) && decide (e.clientY < l.bottom))

/-- The predicate the code actually applies per layer: `params.hittable`
must hold and the bounding rectangle must strictly contain the pointer. -/
def hitPred (e : SEvent) (l : HLayer) : Bool :=
  l.hittable &&
    (decide (e.clientX > l.left) && decide (e.clientX < l.right) &&
      decide (e.clientY > l.top) && decide (e.clientY < l.bottom))

lemma getHitLayers_foldl_eq (e : SEvent) (layers : List HLayer)
    (acc : List HLayer) :
    layers.foldl
      (fun acc layer =>
        if !layer.hittable then acc
        else if e.clientX > layer.left ∧ e.clientX < layer.right ∧
                e.clientY > layer.top ∧ e.clientY < layer.bottom
          then acc ++ [layer]
          else acc)
      acc = acc ++ layers.filter (hitPred e) := by
  induction layers generalizing acc with
  | nil => simp
  | cons l ls ih =>
      simp only [List.foldl_cons, List.filter_cons]
      by_cases hh : l.hittable
      · by_cases hc : (e.clientX > l.left ∧ e.clientX < l.right ∧
            e.clientY > l.top ∧ e.clientY < l.bottom)
        · rw [if_neg (by simp [hh]), if_pos hc, ih]
          have hp : hitPred e l = true := by
            simp [hitPred, hh, hc.1, hc.2.1, hc.2.2.1, hc.2.2.2]
          rw [hp]
          simp
        · rw [if_neg (by simp [hh]), if_neg hc, ih]
          have hp : hitPred e l = false := by
            simp only [hitPred, hh, Bool.true_and]
            push_neg at hc
            by_cases h1 : e.clientX > l.left
            · by_cases h2 : e.clientX < l.right
              · by_cases h3 : e.clientY > l.top
                · simp [h1, h2, h3, hc h1 h2 h3]
                · simp [h3]
              · simp [h2]
            · simp [h1]
          rw [hp]
          simp
      · rw [if_pos (by simp [hh]), ih]
        have hp : hitPred e l = false := by simp [hitPred, hh]
        rw [hp]
        simp

/-- C6 counterexample: a single non-hittable layer whose bounding
rectangle contains the pointer.  `getHitLayers` skips it (the
`params.hittable` guard), so the hit-layers value is empty, while the
claim's collection — exactly the layers whose bounding rectangle
contains the pointer — holds the layer. -/
theorem hitLayers_claim_counterexample :
    getHitLayers [⟨0, false, 0, 10, 0, 10⟩] ⟨0, "surface", 5, 5⟩ = [] ∧
    claimedHitLayers [⟨0, false, 0, 10, 0, 10⟩] ⟨0, "surface", 5, 5⟩ =
      [⟨0, false, 0, 10, 0, 10⟩] ∧
    getHitLayers [⟨0, false, 0, 10, 0, 10⟩] ⟨0, "surface", 5, 5⟩ ≠
      claimedHitLayers [⟨0, false, 0, 10, 0, 10⟩] ⟨0, "surface", 5, 5⟩ := by
  refine ⟨rfl, by decide, by decide⟩

/-- C6 amended: the hit-layers value is the ordered sublist of exactly
the hittable layers whose bounding rectangle strictly contains the
pointer (empty when none matches), and when the event did not originate
from the pointer surface the value passed on is null rather than a
collection. -/
theorem hitLayers_amended (layers : List HLayer) (st : Option Nat)
    (e : SEvent) :
    getHitLayers layers e = layers.filter (hitPred e) ∧
    (e.source = "surface" →
      handleEventCalls layers st e =
        SMCall.emitEvent e.id (some (layers.filter (hitPred e))) ::
          (match st with
           | none => []
           | some sid =>
               [SMCall.stateHandle sid e.id
                 (some (layers.filter (hitPred e)))])) ∧
    (e.source ≠ "surface" →
      handleEventCalls layers st e =
        SMCall.emitEvent e.id none ::
          (match st with
           | none => []
           | some sid => [SMCall.stateHandle sid e.id none])) := by
  have hmain : getHitLayers layers e = layers.filter (hitPred e) :=
    getHitLayers_foldl_eq e layers []
  refine ⟨hmain, fun hs => ?_, fun hs => ?_⟩
  · simp [handleEventCalls, hitLayersArg, hs, hmain]
  · simp [handleEventCalls, hitLayersArg, hs]

/-- Witness for C6 (amended) on a concrete pair of layers — one
non-hittable, one hittable and containing the pointer — dispatched from
the surface with no active state. -/
theorem hitLayers_amended_witness :
    getHitLayers [⟨0, false, 0, 10, 0, 10⟩, ⟨1, true, 0, 10, 0, 10⟩]
        ⟨0, "surface", 5, 5⟩ =
      [⟨0, false, 0, 10, 0, 10⟩, ⟨1, true, 0, 10, 0, 10⟩].filter
        (hitPred ⟨0, "surface", 5, 5⟩) ∧
    handleEventCalls [⟨0, false, 0, 10, 0, 10⟩, ⟨1, true, 0, 10, 0, 10⟩]
        none ⟨0, "surface", 5, 5⟩ =
      [SMCall.emitEvent 0
        (some ([⟨0, false, 0, 10, 0, 10⟩, ⟨1, true, 0, 10, 0, 10⟩].filter
          (hitPred ⟨0, "surface", 5, 5⟩)))] := by
  have h := hitLayers_amended
    [⟨0, false, 0, 10, 0, 10⟩, ⟨1, true, 0, 10, 0, 10⟩] none ⟨0, "surface", 5, 5⟩
  exact ⟨h.1, h.2.1 rfl⟩

/-! ## getTrackFromDOMElement (claim C4) -/

/-- A DOM element: its class list and, through the `node` constructor,
its `parentNode`; a `root` element has a null `parentNode`. -/
inductive DOMElem where
  | root (classes : List String)
  | node (classes : List String) (parent : DOMElem)
deriving DecidableEq, Repr

/-- The class list of an element (`$el.classList`). -/
def DOMElem.classes : DOMElem → List String
  | .root cs => cs
  | .node cs _ => cs

/-- A track as `getTrackFromDOMElement` sees it: its `$svg` element. -/
structure CTrack where
  id : Nat
  svg : DOMElem
deriving DecidableEq, Repr

/-- The `do`/`while` ascent in `Timeline.getTrackFromDOMElement`: test
`$el.classList.contains('track')`, move to `$el.parentNode`, loop while
`$svg` is still null.  When the chain is exhausted without a match the
next iteration reads `classList` of a null `$el`: embedded as the error
outcome (the thrown `TypeError`). -/
def ascendToTrackMarker : DOMElem → Except Unit DOMElem
  | .root cs =>
      if cs.contains "track" then .ok (.root cs) else .error ()
  | .node cs p =>
      if cs.contains "track" then .ok (.node cs p) else ascendToTrackMarker p

/-- `Timeline.getTrackFromDOMElement`: run the ascent, then scan
`this.tracks`, keeping the last track whose `$svg` is the found element
(`track = _track` inside `forEach`); `none` when no track owns it. -/
def getTrackFromDOMElement (tracks : List CTrack) (el : DOMElem) :
    Except Unit (Option CTrack) :=
  match ascendToTrackMarker el with
  | .error () => .error ()
  | .ok svg =>
      .ok (tracks.foldl (fun acc t => if t.svg = svg then some t else acc) none)

/-- C4 fails on the code.  At the concrete failing input — an element of
class `foo` whose only ancestor has class `bar`, so no ancestor carries
the `track` marker — the ascent walks past the root and dereferences the
null `parentNode`: the embedded function reports the thrown error
instead of an absent result.  (At an input whose ancestor does carry the
marker, the owning track is resolved by `$svg` identity.) -/
theorem getTrackFromDOMElement_throws_at_input :
    getTrackFromDOMElement [] (DOMElem.node ["foo"] (DOMElem.root ["bar"])) =
      Except.error () ∧
    getTrackFromDOMElement [⟨7, DOMElem.root ["track"]⟩]
        (DOMElem.node ["foo"] (DOMElem.root ["track"])) =
      Except.ok (some ⟨7, DOMElem.root ["track"]⟩) := by
  exact ⟨rfl, rfl⟩

/-! ## addLayer time-context attachment (claim C5) -/

/-- The root timeline time context (`this.timeContext`), as a value:
its transform parameters and the root-only `visibleWidth`. -/
structure TimelineTimeContext where
  pixelsPerSecond : ℚ
  visibleWidth : ℚ
  offset : ℚ
  stretchRatio : ℚ
deriving DecidableEq, Repr

/-- What `Timeline.addLayer` can bind as a layer's time context: the
timeline's root context object itself (`isAxis` true), or a newly
constructed `LayerTimeContext` whose parent is the root context. -/
inductive BoundTimeContext where
  | master (ctx : TimelineTimeContext)
  | layerChild (parent : TimelineTimeContext)
deriving DecidableEq, Repr

/-- A layer as `addLayer` sees it: possibly already bound to a context. -/
structure TLayer where
  id : Nat
  timeContext : Option BoundTimeContext
deriving DecidableEq, Repr

/-- The time-context attachment step of `Timeline.addLayer`: when the
layer has no `timeContext` yet, bind
`isAxis ? this.timeContext : new LayerTimeContext(this.timeContext)`;
otherwise leave the layer's context alone.  Returns the timeline's root
context (which the method never writes) with the updated layer. -/
def addLayerTimeContext (tlCtx : TimelineTimeContext) (layer : TLayer)
    (isAxis : Bool) : TimelineTimeContext × TLayer :=
  match layer.timeContext with
  | some _ => (tlCtx, layer)
  | none =>
      (tlCtx,
        { layer with
            timeContext := some (if isAxis then BoundTimeContext.master tlCtx
              else BoundTimeContext.layerChild tlCtx) })

/-- C5: a layer with no bound time context is bound by `addLayer` to a
new `LayerTimeContext` whose parent is the root context when `isAxis` is
false, and to the root context object itself when `isAxis` is true; the
root context comes out of the call unmodified; a layer already bound
keeps its context unchanged. -/
theorem addLayer_timeContext_binding (tlCtx : TimelineTimeContext)
    (layer : TLayer) (isAxis : Bool) :
    (addLayerTimeContext tlCtx layer isAxis).1 = tlCtx ∧
    (layer.timeContext = none →
      (addLayerTimeContext tlCtx layer isAxis).2.timeContext =
        some (if isAxis then BoundTimeContext.master tlCtx
          else BoundTimeContext.layerChild tlCtx)) ∧
    (∀ c, layer.timeContext = some c →
      (addLayerTimeContext tlCtx layer isAxis).2 = layer) := by
  rcases layer with ⟨lid, tc⟩
  cases tc with
  | none => exact ⟨rfl, fun _ => rfl, by rintro c ⟨⟩⟩
  | some c0 =>
      refine ⟨rfl, by rintro ⟨⟩, ?_⟩
      rintro c ⟨⟩
      rfl

/-- Witness for C5: a fresh layer bound as an axis layer shares the
concrete root context itself, and a fresh non-axis layer gets a child
chained to it. -/
theorem addLayer_timeContext_binding_witness :
    (addLayerTimeContext ⟨100, 1000, 0, 1⟩ ⟨0, none⟩ true).2.timeContext =
      some (BoundTimeContext.master ⟨100, 1000, 0, 1⟩) ∧
    (addLayerTimeContext ⟨100, 1000, 0, 1⟩ ⟨1, none⟩ false).2.timeContext =
      some (BoundTimeContext.layerChild ⟨100, 1000, 0, 1⟩) := by
  have h1 := addLayer_timeContext_binding ⟨100, 1000, 0, 1⟩ ⟨0, none⟩ true
  have h2 := addLayer_timeContext_binding ⟨100, 1000, 0, 1⟩ ⟨1, none⟩ false
  exact ⟨h1.2.1 rfl, h2.2.1 rfl⟩

/-! ## Configuration errors in the track factories (claim C7) -/

/-- The timeline bookkeeping touched by `Timeline.add` and
`Timeline.createTrack`: the track collection, the `_trackById` map in
insertion order, the tracks configured with the root time context, and
the number of Surface interactions created. -/
structure TLState where
  tracks : List Nat
  trackById : List (String × Nat)
  configured : List Nat
  surfaces : Nat
deriving DecidableEq, Repr

/-- The errors the two factory methods throw. -/
inductive TLError where
  | trackAlreadyAdded
  | trackIdAlreadyUsed (trackId : String)
deriving DecidableEq, Repr

/-- The observable steps of the factories, including the
`new Track($el, trackHeight)` construction that opens `createTrack`. -/
inductive TLAct where
  | constructTrack (t : Nat)
  | registerId (trackId : String) (t : Nat)
  | configureTrack (t : Nat)
  | pushTrack (t : Nat)
  | createSurface (t : Nat)
deriving DecidableEq, Repr

/-- `Timeline.add`: throws when `tracks.indexOf(track) !== -1` as its
first statement; otherwise configures the track with the root time
context, pushes it, and creates a Surface interaction on its `$el`.
Returns the final state, the actions performed in order, and the thrown
error if any. -/
def addTrack (tl : TLState) (t : Nat) :
    TLState × List TLAct × Option TLError :=
  if tl.tracks.contains t then (tl, [], some TLError.trackAlreadyAdded)
  else
    ({ tl with
        tracks := tl.tracks ++ [t]
        configured := tl.configured ++ [t]
        surfaces := tl.surfaces + 1 },
      [TLAct.configureTrack t, TLAct.pushTrack t, TLAct.createSurface t],
      none)

/-- `Timeline.createTrack`: constructs `new Track($el, trackHeight)`
first (the fresh track is `t`), then, when a `trackId` is given and
`_trackById[trackId] !== undefined`, throws; otherwise registers the id
(when given) and calls `this.add(track)` (the trailing
`track.render(); track.update()` touch only the track itself). -/
def createTrack (tl : TLState) (t : Nat) (trackId : Option String) :
    TLState × List TLAct × Option TLError :=
  match trackId with
  | some tid =>
      if (tl.trackById.lookup tid).isSome then
        (tl, [TLAct.constructTrack t], some (TLError.trackIdAlreadyUsed tid))
      else
        let tl1 : TLState := { tl with trackById := tl.trackById ++ [(tid, t)] }
        let r := addTrack tl1 t
        (r.1, TLAct.constructTrack t :: TLAct.registerId tid t :: r.2.1, r.2.2)
  | none =>
      let r := addTrack tl t
      (r.1, TLAct.constructTrack t :: r.2.1, r.2.2)

/-- C7 counterexample: on a timeline whose id map already binds `a`,
`createTrack` with duplicate id `a` does throw, but not "before any
track is created": the `new Track` construction is already in the
performed actions, refuting the claim as stated at this concrete
input. -/
theorem createTrack_constructs_before_throw :
    ¬ (((createTrack ⟨[0], [("a", 0)], [0], 1⟩ 1 (some "a")).2.2.isSome = true) →
      TLAct.constructTrack 1 ∉
        (createTrack ⟨[0], [("a", 0)], [0], 1⟩ 1 (some "a")).2.1) := by
  decide

/-- C7 amended: `Timeline.add` with a track already in the collection
throws before any state is modified (timeline unchanged, no configure,
push or interaction step); `Timeline.createTrack` with an already
registered `trackId` throws before the new track is registered or added
anywhere (timeline unchanged, no register/configure/push/interaction
step), although the `Track` object itself is constructed before the
duplicate-id check. -/
theorem config_errors_amended (tl : TLState) (t : Nat) (tid : String) :
    (tl.tracks.contains t = true →
      addTrack tl t = (tl, [], some TLError.trackAlreadyAdded)) ∧
    ((tl.trackById.lookup tid).isSome = true →
      createTrack tl t (some tid) =
        (tl, [TLAct.constructTrack t],
          some (TLError.trackIdAlreadyUsed tid))) := by
  constructor
  · intro h
    rw [addTrack, if_pos h]
  · intro h
    rw [createTrack, if_pos h]

/-- Witness for C7 (amended) at concrete duplicate inputs: double-adding
track `0` and reusing id `a` both throw with the timeline unchanged. -/
theorem config_errors_amended_witness :
    addTrack ⟨[0], [("a", 0)], [0], 1⟩ 0 =
      (⟨[0], [("a", 0)], [0], 1⟩, [], some TLError.trackAlreadyAdded) ∧
    createTrack ⟨[0], [("a", 0)], [0], 1⟩ 1 (some "a") =
      (⟨[0], [("a", 0)], [0], 1⟩, [TLAct.constructTrack 1],
        some (TLError.trackIdAlreadyUsed "a")) := by
  have h := config_errors_amended ⟨[0], [("a", 0)], [0], 1⟩ 0 "a"
  have h2 := config_errors_amended ⟨[0], [("a", 0)], [0], 1⟩ 1 "a"
  exact ⟨h.1 (by decide), h2.2 (by decide)⟩

/-! ## removeLayer group cleanup (claim C10) -/

/-- The `groupedLayers` cleanup loop of `Timeline.removeLayer`.  Per
group: `const index = group.indexOf(layer)`; when the layer is present
(`index !== -1`) the code calls `group.splice(layer, 1)` — `splice`
coerces its first argument, the Layer object, to index `0`, so it
removes the first element of the group, not the element at `index`;
afterwards a group left empty is deleted from the store. -/
def removeLayerGroups (groups : List (String × List Nat)) (layer : Nat) :
    List (String × List Nat) :=
  (groups.map (fun g =>
      if g.2.contains layer then (g.1, g.2.drop 1) else g)).filter
    (fun g => !g.2.isEmpty)

/-- C10 fails on the code.  At the concrete failing input
`groupedLayers = [g ↦ [7, 3]]`, removing layer `3` — present but not
first in its group — removes the first element `7` instead
(`group.splice(layer, 1)` coerces the layer object to index `0`), so the
supposedly removed layer `3` is still grouped afterwards. -/
theorem removeLayer_wrong_element_at_input :
    removeLayerGroups [("g", [7, 3])] 3 = [("g", [3])] ∧
    3 ∈ (removeLayerGroups [("g", [7, 3])] 3).flatMap (fun g => g.2) := by
  exact ⟨rfl, by decide⟩

end WavesUI
